import Mathlib

/-!
Shallow embedding of two components of the AdGuard Browser Extension slice:

* the custom-filter background service
  (`src/Extension/src/background/services/custom-filter.ts`), and
* the sample-extension popup assistant launcher
  (`src/Extension/api/sample-extension/entries/popup/index.js`).

External collaborators (`CustomFilterApi`, `Engine.debounceUpdate`, `tabsApi`,
`browser.tabs.executeScript`, `chrome.tabs.query`, `openAssistant`) are supplied
as oracle records; each handler returns the trace of collaborator calls it
makes together with its result, so that call counts, call arguments, call
order and resolution/rejection are all observable in the model.
-/

/-- Error value carried by a rejected external API call; the service code never
inspects it, only propagates it. -/
structure ApiError where
  message : String
deriving DecidableEq

/-- Modelled from the spec: the `CustomFilterMetadata` schema record produced by
the external filter-creation API is outside the provided slice; the spec calls
it an opaque result object that this code neither inspects nor mutates. -/
structure CustomFilterMetadata where
  payload : Nat
deriving DecidableEq

/-- Modelled from the spec: the `GetCustomFilterInfoResult` returned by the
external `getFilterInfo` lookup is outside the provided slice and is treated as
an opaque descriptive result. -/
structure GetCustomFilterInfoResult where
  payload : Nat
deriving DecidableEq

/-- Data of a `LoadCustomFilterInfo` message: a candidate filter URL and a
display title. -/
structure LoadCustomFilterInfoData where
  url : String
  title : String

/-- A `LoadCustomFilterInfo` message. -/
structure LoadCustomFilterInfoMessage where
  data : LoadCustomFilterInfoData

/-- The filter descriptor carried by a `SubscribeToCustomFilter` message:
`{customUrl, name, trusted}`. -/
structure CustomFilterSubscriptionData where
  customUrl : String
  name : String
  trusted : Bool

/-- Data of a `SubscribeToCustomFilter` message. -/
structure SubscribeToCustomFilterData where
  filter : CustomFilterSubscriptionData

/-- A `SubscribeToCustomFilter` message. -/
structure SubscribeToCustomFilterMessage where
  data : SubscribeToCustomFilterData

/-- Data of a `RemoveAntiBannerFilter` message: a filter identifier. -/
structure RemoveAntiBannerFilterData where
  filterId : Int

/-- A `RemoveAntiBannerFilter` message. -/
structure RemoveAntiBannerFilterMessage where
  data : RemoveAntiBannerFilterData

/-- The options object passed to `CustomFilterApi.createFilter`. -/
structure CreateFilterOptions where
  customUrl : String
  title : String
  trusted : Bool
  enabled : Bool
deriving DecidableEq

/-- Oracle for the external collaborators used by the message handlers of
`CustomFilterService`; each call may resolve or reject. The payload of
`removeFilter` is discarded by the handler, so it is an arbitrary `Nat`. -/
structure FilterApiEnv where
  getFilterInfo : String → String → Except ApiError GetCustomFilterInfoResult
  createFilter : CreateFilterOptions → Except ApiError CustomFilterMetadata
  removeFilter : Int → Except ApiError Nat

/-- One observable collaborator call made while handling a
`SubscribeToCustomFilter` message. -/
inductive SubscriptionEffect where
  | createFilter (opts : CreateFilterOptions)
  | debounceUpdate
deriving DecidableEq

/-- `CustomFilterService.onCustomFilterInfoLoad`: destructures `url` and
`title` from the message data and returns the result of
`CustomFilterApi.getFilterInfo url title` unchanged; a rejection propagates. -/
def onCustomFilterInfoLoad (env : FilterApiEnv) (message : LoadCustomFilterInfoMessage) :
    Except ApiError GetCustomFilterInfoResult :=
  env.getFilterInfo message.data.url message.data.title

/-- `CustomFilterService.onCustomFilterSubscription`: builds the
`createFilter` options with `title := name` and `enabled := true`, awaits the
creation call, then fires `Engine.debounceUpdate` and returns the created
metadata; a rejected creation call propagates before the debounce fires. -/
def onCustomFilterSubscription (env : FilterApiEnv) (message : SubscribeToCustomFilterMessage) :
    List SubscriptionEffect × Except ApiError CustomFilterMetadata :=
  let filter := message.data.filter
  let opts : CreateFilterOptions :=
    { customUrl := filter.customUrl
      title := filter.name
      trusted := filter.trusted
      enabled := true }
  match env.createFilter opts with
  | Except.error e => ([SubscriptionEffect.createFilter opts], Except.error e)
  | Except.ok filterMetadata =>
      ([SubscriptionEffect.createFilter opts, SubscriptionEffect.debounceUpdate],
        Except.ok filterMetadata)

/-- `CustomFilterService.onCustomFilterRemove`: awaits
`CustomFilterApi.removeFilter filterId` and returns nothing on success; a
rejection propagates unchanged. -/
def onCustomFilterRemove (env : FilterApiEnv) (message : RemoveAntiBannerFilterMessage) :
    Except ApiError Unit :=
  match env.removeFilter message.data.filterId with
  | Except.error e => Except.error e
  | Except.ok _ => Except.ok ()

/-- Modelled from the spec: `BACKGROUND_TAB_ID` is imported from
`src/common/constants`, which is outside the provided slice; the spec describes
it as the sentinel tab identifier of the reserved background pseudo-tab. -/
def BACKGROUND_TAB_ID : Int := -1

/-- Modelled from the spec: `MAIN_FRAME_ID` is exported by the external
`tswebextension` library; the spec describes it as the identifier of the
top-level document frame. -/
def MAIN_FRAME_ID : Nat := 0

/-- Modelled from the spec: `SUBSCRIBE_OUTPUT` is imported from the
repository-root constants module, which is outside the provided slice; the spec
describes it as the fixed output name of the subscribe content script. -/
def SUBSCRIBE_OUTPUT : String := "subscribe"

/-- Modelled from the spec: `isHttpOrWsRequest` is exported by the external
`tswebextension` library; the spec describes it as the predicate accepting URLs
whose scheme is in the HTTP/WS family. -/
def isHttpOrWsRequest (url : String) : Bool :=
  "http:".data.isPrefixOf url.data || "https:".data.isPrefixOf url.data ||
    "ws:".data.isPrefixOf url.data || "wss:".data.isPrefixOf url.data

/-- A frame record held by the `tswebextension` tab/frame registry; the
listener only reads its recorded `url`. -/
structure TabFrame where
  url : String

/-- Details of a `webNavigation.onCommitted` event: the tab identifier, the
frame identifier and the committed URL carried by the event itself. -/
structure OnCommittedDetails where
  tabId : Int
  frameId : Nat
  url : String

/-- The options object passed to `browser.tabs.executeScript`. -/
structure ExecuteScriptOptions where
  file : String
  runAt : String
  frameId : Nat
deriving DecidableEq

/-- One observable browser call made by the navigation listener. -/
inductive InjectEffect where
  | executeScript (tabId : Int) (opts : ExecuteScriptOptions)
deriving DecidableEq

/-- Whether the async navigation listener resolves normally or rejects. -/
inductive InjectResult where
  | resolved
  | rejected
deriving DecidableEq

/-- Oracle for the browser collaborators of `injectSubscriptionScript`: the
tab/frame registry lookup `tabsApi.getTabFrame`, and whether a given
`executeScript` call throws. -/
structure InjectEnv where
  getTabFrame : Int → Nat → Option TabFrame
  executeScriptThrows : Int → ExecuteScriptOptions → Bool

/-- `CustomFilterService.injectSubscriptionScript`, returning the trace of
`executeScript` calls made and whether the listener resolves. The source guards
are mirrored in order: the background-tab check on `tabId`, the registry lookup
`tabsApi.getTabFrame`, the main-frame check on `frameId` together with the
`isHttpOrWsRequest` check on the registry-recorded `frame.url` (the event URL
`details.url` is never read), then the `executeScript` call wrapped in a
try/catch whose catch branch does nothing. -/
def injectSubscriptionScript (env : InjectEnv) (details : OnCommittedDetails) :
    List InjectEffect × InjectResult :=
  let tabId := details.tabId
  let frameId := details.frameId
  if tabId == BACKGROUND_TAB_ID then
    ([], InjectResult.resolved)
  else
    match env.getTabFrame tabId frameId with
    | none => ([], InjectResult.resolved)
    | some frame =>
        let isDocumentFrame := frameId == MAIN_FRAME_ID
        if !isDocumentFrame || !(isHttpOrWsRequest frame.url) then
          ([], InjectResult.resolved)
        else
          let opts : ExecuteScriptOptions :=
            { file := "/" ++ SUBSCRIBE_OUTPUT ++ ".js"
              runAt := "document_start"
              frameId := frameId }
          if env.executeScriptThrows tabId opts then
            -- the await threw: the catch branch does nothing, so the listener
            -- still resolves after the single call
            ([InjectEffect.executeScript tabId opts], InjectResult.resolved)
          else
            ([InjectEffect.executeScript tabId opts], InjectResult.resolved)

/-- A browser tab as delivered to the `chrome.tabs.query` callback. -/
structure Tab where
  id : Nat
  url : String

/-- Oracle for the popup collaborators: the `chrome.tabs.query` result for
given `active` and `currentWindow` flags, and the external `openAssistant`
routine, which may resolve or reject. -/
structure PopupEnv where
  query : Bool → Bool → List Tab
  openAssistant : Nat → Except ApiError Unit

/-- One observable call made by the popup click handler. -/
inductive PopupEffect where
  | tabsQuery (active : Bool) (currentWindow : Bool)
  | logMsg (message : String)
  | openAssistant (tabId : Nat)
  | windowClose
deriving DecidableEq

/-- How the click-handler callback finishes: normally, with an uncaught
TypeError thrown while destructuring the undefined first tab, or as an
unhandled rejection escaping from the awaited `openAssistant` call. -/
inductive PopupOutcome where
  | resolved
  | typeError
  | unhandledRejection
deriving DecidableEq

/-- The popup click handler of `entries/popup/index.js`: calls
`chrome.tabs.query` with `active: true, currentWindow: true`, reads `tabs[0]`
(destructuring `url` from it throws a TypeError when the list is empty, before
anything else runs), logs, awaits `openAssistant(currentTab.id)`, then calls
`window.close()`. Nothing in the callback catches an error. -/
def onOpenAssistantClick (env : PopupEnv) : List PopupEffect × PopupOutcome :=
  let tabs := env.query true true
  match tabs.head? with
  | none => ([PopupEffect.tabsQuery true true], PopupOutcome.typeError)
  | some currentTab =>
      let logLine :=
        "Opening Assistant UI for tab id=" ++ toString currentTab.id ++
          " url=" ++ currentTab.url
      match env.openAssistant currentTab.id with
      | Except.error _ =>
          ([PopupEffect.tabsQuery true true, PopupEffect.logMsg logLine,
            PopupEffect.openAssistant currentTab.id],
            PopupOutcome.unhandledRejection)
      | Except.ok _ =>
          ([PopupEffect.tabsQuery true true, PopupEffect.logMsg logLine,
            PopupEffect.openAssistant currentTab.id, PopupEffect.windowClose],
            PopupOutcome.resolved)

/-- Registry oracle whose tracked frames all record an internal chrome page
URL; no `executeScript` call throws. -/
def envNonHttpFrame : InjectEnv :=
  { getTabFrame := fun _ _ => some { url := "chrome://settings" }
    executeScriptThrows := fun _ _ => false }

/-- Registry oracle whose tracked frames all record an HTTPS URL; no
`executeScript` call throws. -/
def envHttpFrame : InjectEnv :=
  { getTabFrame := fun _ _ => some { url := "https://example.com/" }
    executeScriptThrows := fun _ _ => false }

/-- Registry oracle whose tracked frames all record an HTTPS URL and whose
every `executeScript` call throws. -/
def envHttpFrameThrows : InjectEnv :=
  { getTabFrame := fun _ _ => some { url := "https://example.com/" }
    executeScriptThrows := fun _ _ => true }

/-- Helper: whichever guard fails, the listener makes no call and resolves. -/
theorem inject_noCall_of_background (env : InjectEnv) (details : OnCommittedDetails)
    (h : details.tabId = BACKGROUND_TAB_ID) :
    injectSubscriptionScript env details = ([], InjectResult.resolved) := by
  unfold injectSubscriptionScript
  simp [h]

/-- Helper: a tracked frame whose registry-recorded URL fails the HTTP/WS
predicate is never injected, whatever the event carries. -/
theorem inject_noCall_of_frame_nonHttp (env : InjectEnv) (details : OnCommittedDetails)
    (frame : TabFrame)
    (h2 : env.getTabFrame details.tabId details.frameId = some frame)
    (h4 : isHttpOrWsRequest frame.url = false) :
    injectSubscriptionScript env details = ([], InjectResult.resolved) := by
  unfold injectSubscriptionScript
  by_cases hbg : details.tabId == BACKGROUND_TAB_ID
  · simp [hbg]
  · simp [hbg, h2, h4]

/-- Helper: a non-main frame is never injected. -/
theorem inject_noCall_of_subframe (env : InjectEnv) (details : OnCommittedDetails)
    (h : details.frameId ≠ MAIN_FRAME_ID) :
    injectSubscriptionScript env details = ([], InjectResult.resolved) := by
  unfold injectSubscriptionScript
  by_cases hbg : details.tabId == BACKGROUND_TAB_ID
  · simp [hbg]
  · cases hframe : env.getTabFrame details.tabId details.frameId with
    | none => simp [hbg, hframe]
    | some frame => simp [hbg, hframe, h]

/-- Helper: when every guard passes, exactly one `executeScript` call is made,
to the event's tab and frame, with the fixed resource path and
`runAt = "document_start"`, and the listener resolves. -/
theorem inject_call_of_guards (env : InjectEnv) (details : OnCommittedDetails)
    (frame : TabFrame)
    (h1 : details.tabId ≠ BACKGROUND_TAB_ID)
    (h2 : env.getTabFrame details.tabId details.frameId = some frame)
    (h3 : details.frameId = MAIN_FRAME_ID)
    (h4 : isHttpOrWsRequest frame.url = true) :
    injectSubscriptionScript env details =
      ([InjectEffect.executeScript details.tabId
          { file := "/" ++ SUBSCRIBE_OUTPUT ++ ".js"
            runAt := "document_start"
            frameId := details.frameId }],
        InjectResult.resolved) := by
  unfold injectSubscriptionScript
  rw [h3] at h2
  by_cases hth : env.executeScriptThrows details.tabId
      { file := "/" ++ SUBSCRIBE_OUTPUT ++ ".js"
        runAt := "document_start"
        frameId := details.frameId } <;>
    simp [h1, h2, h3, h4, hth]

/-- Helper: whatever the guards and the executeScript outcome, the listener
resolves normally and makes at most one injection call. -/
theorem inject_resolves_and_atMostOne (env : InjectEnv) (details : OnCommittedDetails) :
    (injectSubscriptionScript env details).2 = InjectResult.resolved ∧
      (injectSubscriptionScript env details).1.length ≤ 1 := by
  unfold injectSubscriptionScript
  by_cases hbg : (details.tabId == BACKGROUND_TAB_ID) = true
  · simp [hbg]
  · cases hframe : env.getTabFrame details.tabId details.frameId with
    | none => simp [hbg, hframe]
    | some frame =>
      by_cases hg : (!(details.frameId == MAIN_FRAME_ID) || !(isHttpOrWsRequest frame.url)) = true
      · simp [hbg, hframe, hg]
      · by_cases hth : env.executeScriptThrows details.tabId
            { file := "/" ++ SUBSCRIBE_OUTPUT ++ ".js"
              runAt := "document_start"
              frameId := details.frameId } = true <;>
          simp [hbg, hframe, hg, hth]

/-- Claim C1: for every SubscribeToCustomFilter message carrying a filter
descriptor, the handler calls the external filter-creation operation exactly
once, with that customUrl, the name as the title, that trusted flag and
enabled = true; after the creation call resolves it fires the
Engine.debounceUpdate engine-refresh signal before returning, and it returns
the metadata produced by the creation call unchanged. -/
theorem C1_subscription_creates_then_debounces
    (env : FilterApiEnv) (message : SubscribeToCustomFilterMessage)
    (md : CustomFilterMetadata)
    (h : env.createFilter
      { customUrl := message.data.filter.customUrl
        title := message.data.filter.name
        trusted := message.data.filter.trusted
        enabled := true } = Except.ok md) :
    onCustomFilterSubscription env message =
      ([SubscriptionEffect.createFilter
          { customUrl := message.data.filter.customUrl
            title := message.data.filter.name
            trusted := message.data.filter.trusted
            enabled := true },
        SubscriptionEffect.debounceUpdate], Except.ok md) := by
  unfold onCustomFilterSubscription
  simp [h]

/-- Witness for claim C1 at a concrete message and a concrete oracle. -/
theorem C1_subscription_witness :
    onCustomFilterSubscription
      { getFilterInfo := fun _ _ => Except.ok { payload := 0 }
        createFilter := fun _ => Except.ok { payload := 7 }
        removeFilter := fun _ => Except.ok 0 }
      { data := { filter :=
          { customUrl := "https://example.com/list.txt", name := "Test", trusted := false } } } =
      ([SubscriptionEffect.createFilter
          { customUrl := "https://example.com/list.txt", title := "Test"
            trusted := false, enabled := true },
        SubscriptionEffect.debounceUpdate], Except.ok { payload := 7 }) :=
  C1_subscription_creates_then_debounces _ _ _ rfl

/-- Claim C7: onCustomFilterInfoLoad returns exactly the external
getFilterInfo result for the message's url and title (so a rejection
propagates unmodified), and onCustomFilterRemove awaits the external
removeFilter call, returns nothing on success, and propagates its error
unmodified: it equals Except.map over the external result, which discards the
success payload and keeps every error branch untouched. -/
theorem C7_infoLoad_and_remove_delegate (env : FilterApiEnv)
    (m1 : LoadCustomFilterInfoMessage) (m2 : RemoveAntiBannerFilterMessage) :
    onCustomFilterInfoLoad env m1 = env.getFilterInfo m1.data.url m1.data.title ∧
      onCustomFilterRemove env m2 =
        Except.map (fun _ => ()) (env.removeFilter m2.data.filterId) := by
  refine ⟨rfl, ?_⟩
  unfold onCustomFilterRemove
  cases env.removeFilter m2.data.filterId <;> rfl

/-- Counterexample to claim C2 as stated: a navigation-commit event whose own
committed URL is HTTPS, in a non-background tab whose tracked main frame
records a chrome-internal URL, produces no script-injection call, because the
scheme guard reads the registry-recorded frame URL and never reads the event
URL. -/
theorem C2_counterexample_eventUrl_http_no_call :
    (1 : Int) ≠ BACKGROUND_TAB_ID ∧
    envNonHttpFrame.getTabFrame 1 0 = some { url := "chrome://settings" } ∧
    (0 : Nat) = MAIN_FRAME_ID ∧
    isHttpOrWsRequest "https://example.com/" = true ∧
    injectSubscriptionScript envNonHttpFrame
        { tabId := 1, frameId := 0, url := "https://example.com/" } =
      ([], InjectResult.resolved) :=
  ⟨by decide, rfl, rfl, by decide, rfl⟩

/-- Claim C2 (amended): for every navigation-commit event whose tabId is not
the background sentinel, whose frame is tracked in the tab/frame registry,
whose frameId equals the main-frame identifier, and whose registry-recorded
frame URL uses an HTTP/WS-family scheme, exactly one script-injection call is
made, targeting that tabId and frameId, with the fixed subscribe-script
resource path and runAt = "document_start". -/
theorem C2_amended_inject_exactly_once (env : InjectEnv) (details : OnCommittedDetails)
    (frame : TabFrame)
    (h1 : details.tabId ≠ BACKGROUND_TAB_ID)
    (h2 : env.getTabFrame details.tabId details.frameId = some frame)
    (h3 : details.frameId = MAIN_FRAME_ID)
    (h4 : isHttpOrWsRequest frame.url = true) :
    injectSubscriptionScript env details =
      ([InjectEffect.executeScript details.tabId
          { file := "/" ++ SUBSCRIBE_OUTPUT ++ ".js"
            runAt := "document_start"
            frameId := details.frameId }],
        InjectResult.resolved) :=
  inject_call_of_guards env details frame h1 h2 h3 h4

/-- Witness for the amended claim C2 at a concrete event and registry. -/
theorem C2_amended_witness :
    injectSubscriptionScript envHttpFrame
        { tabId := 1, frameId := 0, url := "https://example.com/" } =
      ([InjectEffect.executeScript 1
          { file := "/" ++ SUBSCRIBE_OUTPUT ++ ".js"
            runAt := "document_start"
            frameId := 0 }],
        InjectResult.resolved) :=
  C2_amended_inject_exactly_once envHttpFrame _ { url := "https://example.com/" }
    (by decide) rfl rfl (by decide)

/-- Claim C3: when the executeScript call that the listener makes throws, the
exception is caught and discarded: the listener still resolves normally, so
nothing propagates to the navigation-event dispatcher, and at most one
injection call is ever made, so there is no retry. -/
theorem C3_inject_swallows_exception (env : InjectEnv) (details : OnCommittedDetails)
    (h : env.executeScriptThrows details.tabId
      { file := "/" ++ SUBSCRIBE_OUTPUT ++ ".js"
        runAt := "document_start"
        frameId := details.frameId } = true) :
    (injectSubscriptionScript env details).2 = InjectResult.resolved ∧
      (injectSubscriptionScript env details).1.length ≤ 1 :=
  inject_resolves_and_atMostOne env details

/-- Witness for claim C3: a registry whose every executeScript call throws. -/
theorem C3_witness :
    (injectSubscriptionScript envHttpFrameThrows
        { tabId := 1, frameId := 0, url := "https://example.com/" }).2 =
      InjectResult.resolved ∧
    (injectSubscriptionScript envHttpFrameThrows
        { tabId := 1, frameId := 0, url := "https://example.com/" }).1.length ≤ 1 :=
  C3_inject_swallows_exception envHttpFrameThrows
    { tabId := 1, frameId := 0, url := "https://example.com/" } rfl

/-- Counterexample to claim C4 as stated: a navigation-commit event whose own
committed URL has a chrome-internal scheme still triggers a script-injection
call, because the tracked frame's registry-recorded URL is HTTPS and the guard
never reads the event URL. -/
theorem C4_counterexample_nonHttp_event_injects :
    isHttpOrWsRequest "chrome://newtab" = false ∧
    injectSubscriptionScript envHttpFrame
        { tabId := 1, frameId := 0, url := "chrome://newtab" } =
      ([InjectEffect.executeScript 1
          { file := "/" ++ SUBSCRIBE_OUTPUT ++ ".js"
            runAt := "document_start"
            frameId := 0 }],
        InjectResult.resolved) :=
  ⟨by decide, rfl⟩

/-- Claim C4 (amended): for every navigation-commit event whose tracked frame's
registry-recorded URL does not use an HTTP/WS-family scheme, no
script-injection call is made. -/
theorem C4_amended_frame_scheme_guard (env : InjectEnv) (details : OnCommittedDetails)
    (frame : TabFrame)
    (h2 : env.getTabFrame details.tabId details.frameId = some frame)
    (h4 : isHttpOrWsRequest frame.url = false) :
    injectSubscriptionScript env details = ([], InjectResult.resolved) :=
  inject_noCall_of_frame_nonHttp env details frame h2 h4

/-- Witness for the amended claim C4 at a concrete event and registry. -/
theorem C4_amended_witness :
    injectSubscriptionScript envNonHttpFrame
        { tabId := 2, frameId := 0, url := "chrome://newtab" } =
      ([], InjectResult.resolved) :=
  C4_amended_frame_scheme_guard envNonHttpFrame
    { tabId := 2, frameId := 0, url := "chrome://newtab" }
    { url := "chrome://settings" } rfl (by decide)

/-- Claim C5: for every navigation-commit event whose tabId equals the reserved
background-tab sentinel, the listener returns without any script-injection
call, regardless of the event's frameId and URL. -/
theorem C5_background_tab_no_call (env : InjectEnv) (details : OnCommittedDetails)
    (h : details.tabId = BACKGROUND_TAB_ID) :
    injectSubscriptionScript env details = ([], InjectResult.resolved) :=
  inject_noCall_of_background env details h

/-- Witness for claim C5: the background sentinel with an otherwise injectable
main-frame HTTPS navigation in a tracked frame. -/
theorem C5_witness :
    injectSubscriptionScript envHttpFrame
        { tabId := -1, frameId := 0, url := "https://example.com/" } =
      ([], InjectResult.resolved) :=
  C5_background_tab_no_call envHttpFrame
    { tabId := -1, frameId := 0, url := "https://example.com/" } rfl

/-- Claim C6: for every navigation-commit event whose frameId is not the
main-frame identifier, no script-injection call is made. -/
theorem C6_subframe_no_call (env : InjectEnv) (details : OnCommittedDetails)
    (h : details.frameId ≠ MAIN_FRAME_ID) :
    injectSubscriptionScript env details = ([], InjectResult.resolved) :=
  inject_noCall_of_subframe env details h

/-- Witness for claim C6: a tracked HTTPS subframe with frameId 3. -/
theorem C6_witness :
    injectSubscriptionScript envHttpFrame
        { tabId := 1, frameId := 3, url := "https://example.com/" } =
      ([], InjectResult.resolved) :=
  C6_subframe_no_call envHttpFrame
    { tabId := 1, frameId := 3, url := "https://example.com/" } (by decide)

/-- Claim C9: the HTTP/WS scheme guard is evaluated on the URL recorded for the
frame in the tab/frame registry, not on the URL carried by the event: a tracked
frame whose registry-recorded URL is non-HTTP/WS is never injected whatever the
event URL, and a main-frame event in a non-background tab whose tracked frame
records an HTTP/WS URL passes the guard and is injected whatever the event
URL. -/
theorem C9_guard_reads_frame_url :
    (∀ (env : InjectEnv) (details : OnCommittedDetails) (frame : TabFrame),
      env.getTabFrame details.tabId details.frameId = some frame →
      isHttpOrWsRequest frame.url = false →
      (injectSubscriptionScript env details).1 = []) ∧
    (∀ (env : InjectEnv) (details : OnCommittedDetails) (frame : TabFrame),
      details.tabId ≠ BACKGROUND_TAB_ID →
      env.getTabFrame details.tabId details.frameId = some frame →
      details.frameId = MAIN_FRAME_ID →
      isHttpOrWsRequest frame.url = true →
      (injectSubscriptionScript env details).1 =
        [InjectEffect.executeScript details.tabId
          { file := "/" ++ SUBSCRIBE_OUTPUT ++ ".js"
            runAt := "document_start"
            frameId := details.frameId }]) := by
  constructor
  · intro env details frame h2 h4
    rw [inject_noCall_of_frame_nonHttp env details frame h2 h4]
  · intro env details frame h1 h2 h3 h4
    rw [inject_call_of_guards env details frame h1 h2 h3 h4]

/-- Witness for claim C9: an HTTPS event on a chrome-internal tracked frame is
not injected, while an FTP event on an HTTPS tracked main frame is. -/
theorem C9_witness :
    (injectSubscriptionScript envNonHttpFrame
        { tabId := 3, frameId := 0, url := "https://example.org/" }).1 = [] ∧
    (injectSubscriptionScript envHttpFrame
        { tabId := 3, frameId := 0, url := "ftp://example.org/" }).1 =
      [InjectEffect.executeScript 3
        { file := "/" ++ SUBSCRIBE_OUTPUT ++ ".js"
          runAt := "document_start"
          frameId := 0 }] :=
  ⟨C9_guard_reads_frame_url.1 envNonHttpFrame
      { tabId := 3, frameId := 0, url := "https://example.org/" }
      { url := "chrome://settings" } rfl (by decide),
    C9_guard_reads_frame_url.2 envHttpFrame
      { tabId := 3, frameId := 0, url := "ftp://example.org/" }
      { url := "https://example.com/" } (by decide) rfl rfl (by decide)⟩

/-- Claim C8: on a click of the open-assistant button, the handler queries the
browser for the active tab of the current window; when the query yields a first
tab and the openAssistant call for its identifier resolves, the trace is
exactly the query, the log line, the openAssistant call with that tab's
identifier, and only then window.close; when openAssistant rejects,
window.close is never called, so the popup is not closed before the
assistant-attach call completes. -/
theorem C8_assistant_opened_before_close (env : PopupEnv) (t : Tab)
    (h : (env.query true true).head? = some t) :
    (env.openAssistant t.id = Except.ok () →
      onOpenAssistantClick env =
        ([PopupEffect.tabsQuery true true,
          PopupEffect.logMsg
            ("Opening Assistant UI for tab id=" ++ toString t.id ++ " url=" ++ t.url),
          PopupEffect.openAssistant t.id, PopupEffect.windowClose],
          PopupOutcome.resolved)) ∧
    (∀ e, env.openAssistant t.id = Except.error e →
      PopupEffect.windowClose ∉ (onOpenAssistantClick env).1) := by
  constructor
  · intro hok
    unfold onOpenAssistantClick
    simp [h, hok]
  · intro e herr
    unfold onOpenAssistantClick
    simp [h, herr]

/-- Popup oracle: one active HTTPS tab with id 5; openAssistant resolves. -/
def envPopupOk : PopupEnv :=
  { query := fun _ _ => [{ id := 5, url := "https://example.com/" }]
    openAssistant := fun _ => Except.ok () }

/-- Witness for claim C8 at a concrete popup oracle. -/
theorem C8_witness :
    onOpenAssistantClick envPopupOk =
      ([PopupEffect.tabsQuery true true,
        PopupEffect.logMsg
          ("Opening Assistant UI for tab id=" ++ toString (5 : Nat) ++
            " url=" ++ "https://example.com/"),
        PopupEffect.openAssistant 5, PopupEffect.windowClose],
        PopupOutcome.resolved) :=
  (C8_assistant_opened_before_close envPopupOk
      { id := 5, url := "https://example.com/" } rfl).1 rfl

/-- Claim C10: when the browser's tab query returns an empty list, reading the
first tab yields the undefined value and destructuring its url throws a
TypeError inside the callback before openAssistant is invoked: the trace holds
only the query, so openAssistant is never called and window.close is never
called, and the callback finishes with the unhandled TypeError. -/
theorem C10_empty_query_typeError (env : PopupEnv)
    (h : env.query true true = []) :
    onOpenAssistantClick env =
      ([PopupEffect.tabsQuery true true], PopupOutcome.typeError) := by
  unfold onOpenAssistantClick
  simp [h]

/-- Popup oracle whose tab query returns no tabs. -/
def envPopupEmpty : PopupEnv :=
  { query := fun _ _ => []
    openAssistant := fun _ => Except.ok () }

/-- Witness for claim C10 at a concrete popup oracle. -/
theorem C10_witness :
    onOpenAssistantClick envPopupEmpty =
      ([PopupEffect.tabsQuery true true], PopupOutcome.typeError) :=
  C10_empty_query_typeError envPopupEmpty rfl
